import Mathlib

/-!
Formal model of the protocol-compilation and admission layer of
src/core/src/server/grpc_impl/GrpcRequestHandler.cpp (milvus gRPC request handler).

The C++ source is shallowly embedded: JSON values are an explicit inductive
family, C++ exceptions are `Except`-style error results threaded with the
mutated state, the gRPC/engine collaborators (whose code is not part of the
handler file) enter as explicit inputs, and the two shared mutable components
(the request-context registry and the insert admission controller) are modelled
as a map transformer and a labelled transition system respectively.
-/

namespace MilvusGrpcHandler

/-! ## Error codes and Status

Mirrors the milvus Status type: an error code plus a message.  The codes listed
here are the ones produced by the handler paths under study.  The two
classification predicates follow the spec's error taxonomy (section 7):
InvalidArgument covers malformed filter expressions, bad top-k, bad row
records / ids and wrong vector-parameter-block count; Internal covers the
failed post-conversion structural check and unexpected errors.
-/

inductive ErrorCode where
  | SERVER_SUCCESS
  | SERVER_UNEXPECTED_ERROR
  | SERVER_INVALID_ARGUMENT
  | SERVER_INVALID_DSL_PARAMETER
  | SERVER_INVALID_TOPK
  | SERVER_INVALID_ROWRECORD_ARRAY
  | SERVER_INVALID_BINARY_QUERY
  | SERVER_COLLECTION_NOT_EXIST
deriving DecidableEq

structure Status where
  code : ErrorCode
  message : String
deriving DecidableEq

def Status.ok (s : Status) : Bool :=
  s.code = ErrorCode.SERVER_SUCCESS

def statusOK : Status := ⟨ErrorCode.SERVER_SUCCESS, ""⟩

/-- InvalidArgument-class codes, per the spec's error taxonomy (section 7). -/
def invalidArgumentClass (c : ErrorCode) : Bool :=
  match c with
  | ErrorCode.SERVER_INVALID_ARGUMENT => true
  | ErrorCode.SERVER_INVALID_DSL_PARAMETER => true
  | ErrorCode.SERVER_INVALID_TOPK => true
  | ErrorCode.SERVER_INVALID_ROWRECORD_ARRAY => true
  | _ => false

/-- Internal-class codes, per the spec's error taxonomy (section 7). -/
def internalClass (c : ErrorCode) : Bool :=
  match c with
  | ErrorCode.SERVER_INVALID_BINARY_QUERY => true
  | ErrorCode.SERVER_UNEXPECTED_ERROR => true
  | _ => false

/-! ## JSON values

The milvus::json type (nlohmann json) restricted to what the handler touches.
A mutual family is used instead of a nested `List` so that all functions below
are structurally recursive and reduce definitionally.
-/

mutual
inductive Json where
  | null : Json
  | boolean : Bool → Json
  | num : Int → Json
  | str : String → Json
  | arr : JsonList → Json
  | obj : JsonFields → Json
deriving DecidableEq

inductive JsonList where
  | nil : JsonList
  | cons : Json → JsonList → JsonList
deriving DecidableEq

inductive JsonFields where
  | nil : JsonFields
  | cons : String → Json → JsonFields → JsonFields
deriving DecidableEq
end

def JsonFields.findKey : JsonFields → String → Option Json
  | JsonFields.nil, _ => none
  | JsonFields.cons k v rest, key => if k = key then some v else rest.findKey key

/-- nlohmann contains(key): true only for objects holding the key. -/
def Json.containsKey (j : Json) (key : String) : Bool :=
  match j with
  | Json.obj fs => (fs.findKey key).isSome
  | _ => false

/-- nlohmann empty(): true for null and for arrays/objects with no elements;
primitive values have size 1 and are never empty. -/
def Json.isEmpty : Json → Bool
  | Json.null => true
  | Json.arr JsonList.nil => true
  | Json.obj JsonFields.nil => true
  | _ => false

/-- Const operator[] on an object; in the source it is only applied after a
contains() guard, so the default for the unreachable cases is null. -/
def Json.constGet (j : Json) (key : String) : Json :=
  match j with
  | Json.obj fs => (fs.findKey key).getD Json.null
  | _ => Json.null

/-- Non-const operator[] with a string key: on an object returns the mapped
value or null (nlohmann inserts a null for a missing key); on null the value
first becomes an empty object, yielding null as well; on any other type
nlohmann throws a type_error. -/
def Json.bracketGet (j : Json) (key : String) : Except String Json :=
  match j with
  | Json.obj fs => Except.ok ((fs.findKey key).getD Json.null)
  | Json.null => Except.ok Json.null
  | _ => Except.error "cannot use operator[] with a string argument"

/-- nlohmann get of an integer: throws a type_error unless the value is a number. -/
def Json.toInt64 : Json → Except String Int
  | Json.num n => Except.ok n
  | _ => Except.error "type must be number"

/-- nlohmann get of a string: throws a type_error unless the value is a string. -/
def Json.toStringValue : Json → Except String String
  | Json.str s => Except.ok s
  | _ => Except.error "type must be string"

/-- Model of `it = vector_json.begin(); it.key(); it.value();` with no end
check: key() throws for non-object iterators, and dereferencing the end
iterator of an empty object is invalid. -/
def Json.firstKeyValue : Json → Except String (String × Json)
  | Json.obj (JsonFields.cons k v _) => Except.ok (k, v)
  | Json.obj JsonFields.nil => Except.error "cannot dereference an end iterator"
  | _ => Except.error "cannot use key() for non-object iterators"

inductive IterBegin where
  | atEnd
  | kv (key : String) (value : Json)
  | throws (msg : String)

/-- Model of `it2 = v.begin(); if (it2 != v.end()) { it2.key(); ... }`: null and
empty containers have begin equal to end; a non-empty object yields its first
key/value; a non-empty array or a primitive has an element but key() throws
for non-object iterators. -/
def Json.iterBeginChecked : Json → IterBegin
  | Json.null => IterBegin.atEnd
  | Json.obj JsonFields.nil => IterBegin.atEnd
  | Json.arr JsonList.nil => IterBegin.atEnd
  | Json.obj (JsonFields.cons k v _) => IterBegin.kv k v
  | _ => IterBegin.throws "cannot use key() for non-object iterators"

/-! ## Boolean query tree and query data

query::BooleanQuery / query::LeafQuery / query::Query are declared outside the
sampled file; their shape here follows the spec's data model (section 3):
a boolean node carries an occur tag and an ordered sequence of children, each
either a nested node or a leaf clause; the query object accumulates referenced
fields, per-field metric types and the placeholder-to-vector-query map.
-/

inductive Occur where
  | INVALID
  | MUST
  | MUST_NOT
  | SHOULD
deriving DecidableEq

structure LeafQuery where
  termJson : Option Json := none
  rangeJson : Option Json := none
  vectorPlaceholder : String := ""

inductive BooleanQuery where
  | node : Occur → List (BooleanQuery ⊕ LeafQuery) → BooleanQuery

def BooleanQuery.SetOccur : BooleanQuery → Occur → BooleanQuery
  | BooleanQuery.node _ cs, oc => BooleanQuery.node oc cs

def BooleanQuery.AddBooleanQuery : BooleanQuery → BooleanQuery → BooleanQuery
  | BooleanQuery.node oc cs, child => BooleanQuery.node oc (cs ++ [Sum.inl child])

def BooleanQuery.AddLeafQuery : BooleanQuery → LeafQuery → BooleanQuery
  | BooleanQuery.node oc cs, leaf => BooleanQuery.node oc (cs ++ [Sum.inr leaf])

/-- A freshly constructed query::BooleanQuery: occur unset, no children. -/
def emptyBooleanQuery : BooleanQuery := BooleanQuery.node Occur.INVALID []

structure VectorRowRecord where
  floatDataSize : Nat
  binaryDataSize : Nat
deriving DecidableEq

/-- engine::VectorsData as filled by CopyRowRecords: only the vector count and
the two buffer lengths are observable here (the raw bytes live in the wire
buffers). -/
structure VectorsData where
  vectorCount : Nat
  floatDataLen : Nat
  binaryDataLen : Nat
deriving DecidableEq

/-- CopyRowRecords (lines 127-165): both arrays are allocated at the summed
sizes (contents are then copied into at most one of them), the vector count is
the number of records. -/
def CopyRowRecords (records : List VectorRowRecord) : VectorsData :=
  { vectorCount := records.length
    floatDataLen := (records.map VectorRowRecord.floatDataSize).sum
    binaryDataLen := (records.map VectorRowRecord.binaryDataSize).sum }

structure VectorQuery where
  fieldName : String := ""
  topk : Int := 0
  metricType : String := ""
  extraParams : Option Json := none
  queryVector : VectorsData := ⟨0, 0, 0⟩

/-- query::Query fields touched by the handler. -/
structure QueryData where
  collectionId : String := ""
  indexFields : List String := []
  metricTypes : List (String × String) := []
  vectors : List (String × VectorQuery) := []
  partitions : List String := []

/-- std::set insert: add the element unless already present. -/
def insertSet (l : List String) (x : String) : List String :=
  if l.contains x then l else l ++ [x]

/-- std::map / std::unordered_map insert: adds the pair only when the key is
not yet present (never overwrites). -/
def insertAssoc {α : Type} (l : List (String × α)) (k : String) (v : α) : List (String × α) :=
  if (l.lookup k).isSome then l else l ++ [(k, v)]

def defaultQueryData : QueryData := {}

/-- Modelled from the spec: server::ValidateSearchTopk lives in
server/ValidationUtil.cpp, which is not part of the sampled source.  Per the
spec (sections 4.3 and 6) top-k must be positive and at most an
engine-declared maximum, and a bad top-k is an InvalidArgument-class failure. -/
def QUERY_MAX_TOPK : Int := 16384

def ValidateSearchTopk (topk : Int) : Status :=
  if 0 < topk ∧ topk ≤ QUERY_MAX_TOPK then statusOK
  else ⟨ErrorCode.SERVER_INVALID_TOPK, "Invalid topk: " ++ toString topk⟩

/-- Result of a C++ body that can return a non-OK Status or let an exception
escape; `value` is the state of the mutated out-parameters at that point. -/
inductive PResult (α : Type) where
  | ok (value : α)
  | stat (s : Status) (value : α)
  | exn (msg : String) (value : α)

/-! ## ProcessLeafQueryJson (lines 1536-1574)

The JSON_NULL_CHECK / JSON_OBJECT_CHECK macros are declared outside the sampled
source; modelled from the spec's malformed-input classification as returning an
InvalidArgument status when the value is null resp. not an object.
-/

def ProcessLeafQueryJson (queryJson : Json) (query : BooleanQuery) :
    PResult (BooleanQuery × String) :=
  if queryJson.containsKey "term" then
    let jsonObj := queryJson.constGet "term"
    if jsonObj = Json.null then
      PResult.stat ⟨ErrorCode.SERVER_INVALID_ARGUMENT, "Json is null"⟩ (query, "")
    else
      match jsonObj with
      | Json.obj (JsonFields.cons k _ _) =>
          PResult.ok (query.AddLeafQuery { termJson := some jsonObj }, k)
      | Json.obj JsonFields.nil =>
          PResult.exn "cannot dereference an end iterator" (query, "")
      | _ => PResult.stat ⟨ErrorCode.SERVER_INVALID_ARGUMENT, "Json is not an object"⟩ (query, "")
  else if queryJson.containsKey "range" then
    let jsonObj := queryJson.constGet "range"
    if jsonObj = Json.null then
      PResult.stat ⟨ErrorCode.SERVER_INVALID_ARGUMENT, "Json is null"⟩ (query, "")
    else
      match jsonObj with
      | Json.obj (JsonFields.cons k _ _) =>
          PResult.ok (query.AddLeafQuery { rangeJson := some jsonObj }, k)
      | Json.obj JsonFields.nil =>
          PResult.exn "cannot dereference an end iterator" (query, "")
      | _ => PResult.stat ⟨ErrorCode.SERVER_INVALID_ARGUMENT, "Json is not an object"⟩ (query, "")
  else if queryJson.containsKey "vector" then
    let vectorJson := queryJson.constGet "vector"
    if vectorJson = Json.null then
      PResult.stat ⟨ErrorCode.SERVER_INVALID_ARGUMENT, "Json is null"⟩ (query, "")
    else
      match vectorJson.toStringValue with
      | Except.error m => PResult.exn m (query, "")
      | Except.ok placeholder =>
          PResult.ok (query.AddLeafQuery { vectorPlaceholder := placeholder }, "")
  else
    PResult.stat ⟨ErrorCode.SERVER_INVALID_ARGUMENT, "Leaf query get wrong key"⟩ (query, "")

/-! ## ProcessBooleanQueryJson (lines 1576-1653)

The source iterates query_json.items().  For an object the items are its
fields; for a non-empty array nlohmann yields index keys "0", "1", ... and for
a primitive a single element with key "", so in both cases the first loop
iteration falls into the final else branch; the empty cases are caught by the
leading empty() check.  The clause arrays are walked left to right, recursing
into nested boolean clauses and otherwise dispatching to leaf parsing on the
current node; leaf field names are accumulated into query_ptr->index_fields.
-/

mutual
def ProcessBooleanQueryJson (queryJson : Json) (booleanQuery : BooleanQuery)
    (queryPtr : QueryData) : PResult (BooleanQuery × QueryData) :=
  if queryJson.isEmpty then
    PResult.stat ⟨ErrorCode.SERVER_INVALID_ARGUMENT, "BoolQuery is null"⟩ (booleanQuery, queryPtr)
  else
    match queryJson with
    | Json.obj fs => ProcessBoolItems fs booleanQuery queryPtr
    | _ =>
        PResult.stat
          ⟨ErrorCode.SERVER_INVALID_DSL_PARAMETER, "BoolQuery json string does not include bool query"⟩
          (booleanQuery, queryPtr)

def ProcessBoolItems (fs : JsonFields) (booleanQuery : BooleanQuery)
    (queryPtr : QueryData) : PResult (BooleanQuery × QueryData) :=
  match fs with
  | JsonFields.nil => PResult.ok (booleanQuery, queryPtr)
  | JsonFields.cons key value rest =>
    if key = "must" then
      let bq := booleanQuery.SetOccur Occur.MUST
      match value with
      | Json.arr elems =>
          (match ProcessBoolClauses elems bq queryPtr with
           | PResult.ok (bq2, qd2) => ProcessBoolItems rest bq2 qd2
           | r => r)
      | _ =>
          PResult.stat ⟨ErrorCode.SERVER_INVALID_DSL_PARAMETER, "Must json string is not an array"⟩
            (bq, queryPtr)
    else if key = "should" then
      let bq := booleanQuery.SetOccur Occur.SHOULD
      match value with
      | Json.arr elems =>
          (match ProcessBoolClauses elems bq queryPtr with
           | PResult.ok (bq2, qd2) => ProcessBoolItems rest bq2 qd2
           | r => r)
      | _ =>
          PResult.stat ⟨ErrorCode.SERVER_INVALID_DSL_PARAMETER, "Should json string is not an array"⟩
            (bq, queryPtr)
    else if key = "must_not" then
      let bq := booleanQuery.SetOccur Occur.MUST_NOT
      match value with
      | Json.arr elems =>
          (match ProcessBoolClauses elems bq queryPtr with
           | PResult.ok (bq2, qd2) => ProcessBoolItems rest bq2 qd2
           | r => r)
      | _ =>
          PResult.stat ⟨ErrorCode.SERVER_INVALID_DSL_PARAMETER, "Must_not json string is not an array"⟩
            (bq, queryPtr)
    else
      PResult.stat
        ⟨ErrorCode.SERVER_INVALID_DSL_PARAMETER, "BoolQuery json string does not include bool query"⟩
        (booleanQuery, queryPtr)

def ProcessBoolClauses (elems : JsonList) (booleanQuery : BooleanQuery)
    (queryPtr : QueryData) : PResult (BooleanQuery × QueryData) :=
  match elems with
  | JsonList.nil => PResult.ok (booleanQuery, queryPtr)
  | JsonList.cons j rest =>
    if j.containsKey "must" || j.containsKey "should" || j.containsKey "must_not" then
      match ProcessBooleanQueryJson j emptyBooleanQuery queryPtr with
      | PResult.ok (child, qd2) =>
          ProcessBoolClauses rest (booleanQuery.AddBooleanQuery child) qd2
      | PResult.stat s (_, qd2) => PResult.stat s (booleanQuery, qd2)
      | PResult.exn m (_, qd2) => PResult.exn m (booleanQuery, qd2)
    else
      match ProcessLeafQueryJson j booleanQuery with
      | PResult.ok (bq2, fieldName) =>
          let qd2 :=
            if fieldName = "" then queryPtr
            else { queryPtr with indexFields := insertSet queryPtr.indexFields fieldName }
          ProcessBoolClauses rest bq2 qd2
      | PResult.stat s (bq2, _) => PResult.stat s (bq2, queryPtr)
      | PResult.exn m (bq2, _) => PResult.exn m (bq2, queryPtr)
end

/-! ## DeserializeDslToBoolQuery (lines 1655-1715)

The vector-parameter JSON strings come pre-parsed (json::parse is the external
nlohmann library; a parse failure carries the exception message).  Each block
is processed exactly as in the source: first key is the placeholder, the first
key below it names the target field, whose parameter bag must hold a numeric
topk that passes ValidateSearchTopk; optional metric_type and params follow;
finally the row records are copied and the placeholder mapping inserted.
-/

structure VectorParam where
  jsonParse : Except String Json
  rowRecords : List VectorRowRecord

inductive VPOutcome where
  | ok (qd : QueryData)
  | earlyStatus (s : Status) (qd : QueryData)
  | exn (msg : String) (qd : QueryData)

/-- The body of the `if (vector_param_it != it.value().end())` block: reads the
field name, validates topk, and picks up the optional metric_type and params
entries.  An outer error is an in-flight C++ exception; an inner error is the
early STATUS_CHECK return on a failed topk validation. -/
def ProcessVectorParamInner (inner : Json) (qd : QueryData) :
    Except String (Except Status (VectorQuery × QueryData)) :=
  match inner.iterBeginChecked with
  | IterBegin.throws m => Except.error m
  | IterBegin.atEnd => Except.ok (Except.ok ({}, qd))
  | IterBegin.kv fieldName paramJson =>
    match paramJson.bracketGet "topk" with
    | Except.error m => Except.error m
    | Except.ok topkJson =>
      match topkJson.toInt64 with
      | Except.error m => Except.error m
      | Except.ok topk =>
        if (ValidateSearchTopk topk).ok = false then
          Except.ok (Except.error (ValidateSearchTopk topk))
        else
          match
            (if paramJson.containsKey "metric_type" then
              match (paramJson.constGet "metric_type").toStringValue with
              | Except.error m => Except.error m
              | Except.ok mt =>
                  Except.ok
                    (({ fieldName := fieldName, topk := topk, metricType := mt } : VectorQuery),
                      { qd with metricTypes := insertAssoc qd.metricTypes fieldName mt })
            else
              Except.ok (({ fieldName := fieldName, topk := topk } : VectorQuery), qd) :
              Except String (VectorQuery × QueryData))
          with
          | Except.error m => Except.error m
          | Except.ok (vq2, qd2) =>
            match paramJson.bracketGet "params" with
            | Except.error m => Except.error m
            | Except.ok paramsJson =>
              let vq3 :=
                if paramsJson.isEmpty then vq2
                else { vq2 with extraParams := some paramsJson }
              Except.ok (Except.ok (vq3,
                { qd2 with indexFields := insertSet qd2.indexFields fieldName }))

def ProcessOneVectorParam (vp : VectorParam) (qd : QueryData) : VPOutcome :=
  match vp.jsonParse with
  | Except.error m => VPOutcome.exn m qd
  | Except.ok vectorJson =>
    match vectorJson.firstKeyValue with
    | Except.error m => VPOutcome.exn m qd
    | Except.ok (placeholder, inner) =>
      match ProcessVectorParamInner inner qd with
      | Except.error m => VPOutcome.exn m qd
      | Except.ok (Except.error s) => VPOutcome.earlyStatus s qd
      | Except.ok (Except.ok (vq, qd2)) =>
        let vectorData := CopyRowRecords vp.rowRecords
        let vqFinal := { vq with queryVector := vectorData }
        VPOutcome.ok { qd2 with vectors := insertAssoc qd2.vectors placeholder vqFinal }

def ProcessVectorParams : List VectorParam → QueryData → VPOutcome
  | [], qd => VPOutcome.ok qd
  | vp :: rest, qd =>
    match ProcessOneVectorParam vp qd with
    | VPOutcome.ok qd2 => ProcessVectorParams rest qd2
    | r => r

structure DeserializeResult where
  status : Status
  booleanQuery : BooleanQuery
  queryPtr : QueryData

/-- The try-block body of DeserializeDslToBoolQuery: dsl parse, empty check,
vector-parameter-count check, vector-parameter processing, then the top-level
bool dispatch into ProcessBooleanQueryJson. -/
def DeserializeRun (dslParse : Except String Json) (vectorParams : List VectorParam)
    (booleanQuery : BooleanQuery) (queryPtr : QueryData) :
    PResult (BooleanQuery × QueryData) :=
  match dslParse with
  | Except.error m => PResult.exn m (booleanQuery, queryPtr)
  | Except.ok dslJson =>
    if dslJson.isEmpty then
      PResult.stat ⟨ErrorCode.SERVER_INVALID_ARGUMENT, "Query dsl is null"⟩ (booleanQuery, queryPtr)
    else if vectorParams.length ≠ 1 then
      PResult.stat ⟨ErrorCode.SERVER_INVALID_DSL_PARAMETER, "There should only be one vector query"⟩
        (booleanQuery, queryPtr)
    else
      match ProcessVectorParams vectorParams queryPtr with
      | VPOutcome.exn m qd => PResult.exn m (booleanQuery, qd)
      | VPOutcome.earlyStatus s qd => PResult.stat s (booleanQuery, qd)
      | VPOutcome.ok qd =>
        if dslJson.containsKey "bool" then
          let boolJson := dslJson.constGet "bool"
          if boolJson = Json.null then
            PResult.stat ⟨ErrorCode.SERVER_INVALID_ARGUMENT, "Json is null"⟩ (booleanQuery, qd)
          else ProcessBooleanQueryJson boolJson booleanQuery qd
        else
          PResult.stat ⟨ErrorCode.SERVER_INVALID_DSL_PARAMETER, "DSL does not include bool query"⟩
            (booleanQuery, qd)

/-- DeserializeDslToBoolQuery: the catch(std::exception) wrapper rewraps any
in-flight exception as SERVER_INVALID_DSL_PARAMETER carrying e.what(); the
function is total, so no exception crosses the call boundary. -/
def DeserializeDslToBoolQuery (dslParse : Except String Json) (vectorParams : List VectorParam)
    (booleanQuery : BooleanQuery) (queryPtr : QueryData) : DeserializeResult :=
  match DeserializeRun dslParse vectorParams booleanQuery queryPtr with
  | PResult.ok (bq, qd) => ⟨statusOK, bq, qd⟩
  | PResult.stat s (bq, qd) => ⟨s, bq, qd⟩
  | PResult.exn m (bq, qd) => ⟨⟨ErrorCode.SERVER_INVALID_DSL_PARAMETER, m⟩, bq, qd⟩

/-! ## Search handler (lines 1717-1813)

The external collaborators reached from Search whose code is not part of the
sampled file (ReqHandler::GetCollectionInfo, query::QueryUtil::ValidateBooleanQuery,
GenBinaryQuery / ValidateBinaryQuery, ReqHandler::Search) enter the model as
explicit outcome inputs; the handler's own control flow, error classification
and response wiring are taken from the source.  Both embedded statuses start
out as default protobuf messages, i.e. SUCCESS with an empty reason.
-/

structure SearchCollaborators where
  getCollectionInfoStatus : Status
  validateBooleanQueryStatus : Status
  validateBinaryQueryOk : Bool
  engineSearchStatus : Status

structure SearchOutcome where
  responseStatus : Status
  entityStatus : Status
  engineInvoked : Bool
deriving DecidableEq

def Search (c : SearchCollaborators) (dslParse : Except String Json)
    (vectorParams : List VectorParam) : SearchOutcome :=
  if c.getCollectionInfoStatus.ok = false then
    ⟨c.getCollectionInfoStatus, statusOK, false⟩
  else
    let d := DeserializeDslToBoolQuery dslParse vectorParams emptyBooleanQuery defaultQueryData
    if d.status.ok = false then ⟨d.status, statusOK, false⟩
    else if c.validateBooleanQueryStatus.ok = false then
      ⟨c.validateBooleanQueryStatus, statusOK, false⟩
    else if c.validateBinaryQueryOk = false then
      -- the failed post-conversion check is written to the entities sub-status,
      -- the top-level response status keeps its default value
      ⟨statusOK, ⟨ErrorCode.SERVER_INVALID_BINARY_QUERY, "Generate wrong binary query tree"⟩, false⟩
    else if c.engineSearchStatus.ok = false then ⟨c.engineSearchStatus, statusOK, true⟩
    else ⟨c.engineSearchStatus, statusOK, true⟩

/-! ## Insert marshalling (lines 95-125 and 1324-1420) -/

inductive DataKind where
  | i32
  | i64
  | f32
  | f64
  | char
deriving DecidableEq

/-- One recorded zero-copy span: element kind and element count (the recorded
byte length is the count times the element width). -/
structure Segment where
  kind : DataKind
  num : Nat
deriving DecidableEq

def sizeofKind : DataKind → Nat
  | DataKind.i32 => 4
  | DataKind.i64 => 8
  | DataKind.f32 => 4
  | DataKind.f64 => 8
  | DataKind.char => 1

def Segment.bytes (s : Segment) : Nat := s.num * sizeofKind s.kind

/-- insert_param.fields_data_[field_name].emplace_back(segment). -/
def appendSegment (l : List (String × List Segment)) (field : String) (s : Segment) :
    List (String × List Segment) :=
  match l with
  | [] => [(field, [s])]
  | (g, segs) :: rest =>
      if g = field then (g, segs ++ [s]) :: rest else (g, segs) :: appendSegment rest field s

structure InsertParam where
  fieldsData : List (String × List Segment) := []
  rowCount : Int := 0
  idReturned : List Int := []

/-- RecordDataAddr (lines 96-103): records one pointer+length span for the field. -/
def RecordDataAddr (fieldName : String) (kind : DataKind) (num : Nat) (p : InsertParam) :
    InsertParam :=
  { p with fieldsData := appendSegment p.fieldsData fieldName ⟨kind, num⟩ }

/-- RecordVectorDataAddr (lines 105-125): sums the float and binary sizes over
all records, then records float spans when the float total is positive, and
binary spans only otherwise. -/
def RecordVectorDataAddr (fieldName : String) (records : List VectorRowRecord)
    (p : InsertParam) : InsertParam :=
  let floatDataSize := (records.map VectorRowRecord.floatDataSize).sum
  let binaryDataSize := (records.map VectorRowRecord.binaryDataSize).sum
  if floatDataSize > 0 then
    records.foldl (fun acc r => RecordDataAddr fieldName DataKind.f32 r.floatDataSize acc) p
  else if binaryDataSize > 0 then
    records.foldl (fun acc r => RecordDataAddr fieldName DataKind.char r.binaryDataSize acc) p
  else p

structure AttrRecord where
  int32Count : Nat := 0
  int64Count : Nat := 0
  floatCount : Nat := 0
  doubleCount : Nat := 0
deriving DecidableEq

structure FieldParam where
  fieldName : String
  attr : AttrRecord
  vectorRecords : List VectorRowRecord
deriving DecidableEq

/-- The wire-level insert request fields used by OnInsert. -/
structure GrpcInsertParam where
  collectionName : String := ""
  partitionTag : String := ""
  entityIdArray : List Int := []
  fields : List FieldParam := []
deriving DecidableEq

/-- The element count the OnInsert loop feeds into valid_row_count for a
field: the first populated variant in priority order int32, int64, float,
double, and the vector record count otherwise. -/
def fieldElementCount (f : FieldParam) : Nat :=
  if f.attr.int32Count > 0 then f.attr.int32Count
  else if f.attr.int64Count > 0 then f.attr.int64Count
  else if f.attr.floatCount > 0 then f.attr.floatCount
  else if f.attr.doubleCount > 0 then f.attr.doubleCount
  else f.vectorRecords.length

/-- The kind the same branch records for the field. -/
def fieldRecord (f : FieldParam) (p : InsertParam) : InsertParam :=
  if f.attr.int32Count > 0 then RecordDataAddr f.fieldName DataKind.i32 f.attr.int32Count p
  else if f.attr.int64Count > 0 then RecordDataAddr f.fieldName DataKind.i64 f.attr.int64Count p
  else if f.attr.floatCount > 0 then RecordDataAddr f.fieldName DataKind.f32 f.attr.floatCount p
  else if f.attr.doubleCount > 0 then RecordDataAddr f.fieldName DataKind.f64 f.attr.doubleCount p
  else RecordVectorDataAddr f.fieldName f.vectorRecords p

/-- The per-field loop of OnInsert (lines 1355-1394) together with the inlined
valid_row_count lambda (lines 1337-1351): the first field establishes row_num
and is checked against a non-empty client id array; every later field must
match row_num exactly. -/
def processInsertFields (idArrayLen : Nat) (rowNum : Int) (fields : List FieldParam)
    (p : InsertParam) : Except Status (Int × InsertParam) :=
  match fields with
  | [] => Except.ok (rowNum, p)
  | f :: rest =>
    let test : Int := fieldElementCount f
    if rowNum < 0 then
      if idArrayLen > 0 ∧ test ≠ (idArrayLen : Int) then
        Except.error ⟨ErrorCode.SERVER_INVALID_ROWRECORD_ARRAY, "ID size not matches entity size"⟩
      else processInsertFields idArrayLen test rest (fieldRecord f p)
    else if rowNum ≠ test then
      Except.error ⟨ErrorCode.SERVER_INVALID_ROWRECORD_ARRAY, "Field row count inconsist"⟩
    else processInsertFields idArrayLen rowNum rest (fieldRecord f p)

/-- Modelled from the spec: engine::FIELD_UID is the reserved id column name
declared outside the sampled source. -/
def FIELD_UID : String := "_id"

structure OnInsertOutcome where
  status : Status
  engineInvoked : Bool
  param : InsertParam
  responseIds : List Int

/-- OnInsert (lines 1324-1420).  The downstream engine call
ReqHandler::Insert is external to the sampled file; its status and the ids it
fills into insert_param.id_returned_ enter as inputs. -/
def OnInsert (request : GrpcInsertParam) (engineStatus : Status) (engineIds : List Int) :
    OnInsertOutcome :=
  if request.entityIdArray.any (fun i => i < 0) then
    ⟨⟨ErrorCode.SERVER_INVALID_ROWRECORD_ARRAY, "id can not be negative number"⟩, false, {}, []⟩
  else
    match processInsertFields request.entityIdArray.length (-1) request.fields {} with
    | Except.error s => ⟨s, false, {}, []⟩
    | Except.ok (rowNum, p) =>
      let p := { p with rowCount := rowNum }
      let p :=
        if request.entityIdArray.length > 0 then
          RecordDataAddr FIELD_UID DataKind.i64 request.entityIdArray.length p
        else p
      if engineStatus.ok = false then ⟨engineStatus, true, p, []⟩
      else
        let p := { p with idReturned := engineIds }
        ⟨engineStatus, true, p, engineIds⟩

/-! ## Insert admission controller (lines 1815-1842)

WaitToInsert blocks on the condition variable until the wait predicate
max_concurrent_insert_request_size - request_size > 0 holds, then subtracts the
size; FinishInsert adds it back and wakes all waiters.  The model is a labelled
transition system over the remaining budget and the multiset of
admitted-but-not-yet-released request sizes; request sizes come from
protobuf ByteSizeLong() and are therefore non-negative, and a finishInsert step
is always paired with an earlier waitToInsert of the same size.
-/

structure AdmissionState where
  budget : Int
  outstanding : Multiset Int

inductive InsertStep (B : Int) : AdmissionState → AdmissionState → Prop
  | waitToInsert (s : Int) (st : AdmissionState) (hsize : 0 ≤ s)
      (hwait : 0 < st.budget - s) :
      InsertStep B st ⟨st.budget - s, s ::ₘ st.outstanding⟩
  | finishInsert (s : Int) (st : AdmissionState) (hmem : s ∈ st.outstanding) :
      InsertStep B st ⟨st.budget + s, st.outstanding.erase s⟩

/-- States reachable from the configured budget B with no request in flight. -/
inductive InsertReachable (B : Int) : AdmissionState → Prop
  | init : InsertReachable B ⟨B, 0⟩
  | step {st st' : AdmissionState} :
      InsertReachable B st → InsertStep B st st' → InsertReachable B st'

/-! ## Request context registry (lines 560-716) -/

structure Context where
  reqID : String
deriving DecidableEq

/-- context_map_: request id to shared_ptr of Context; a none value is the
nullptr placeholder stored while the id is only reserved. -/
abbrev CtxMap : Type := List (String × Option Context)

def CtxMap.lookup (m : CtxMap) (k : String) : Option (Option Context) :=
  List.lookup k m

def CtxMap.containsKey (m : CtxMap) (k : String) : Bool :=
  (CtxMap.lookup m k).isSome

/-- context_map_[k] = v: overwrites the entry when the key exists, inserts
otherwise. -/
def CtxMap.store (m : CtxMap) (k : String) (v : Option Context) : CtxMap :=
  match m with
  | [] => [(k, v)]
  | (g, w) :: rest => if g = k then (k, v) :: rest else (g, w) :: CtxMap.store rest k v

def CtxMap.size (m : CtxMap) : Nat := List.length m

/-- get_request_id (lines 571-589): reads the REQ_ID entry of the server
metadata, added only by set_request_id; missing metadata yields INVALID_ID. -/
def getRequestId (serverMetaReqId : Option String) : String :=
  match serverMetaReqId with
  | some rid => rid
  | none => "INVALID_ID"

/-- SetContext (lines 701-706): stores the context under the id read back from
the server metadata. -/
def SetContext (m : CtxMap) (serverMetaReqId : Option String) (context : Option Context) :
    CtxMap :=
  CtxMap.store m (getRequestId serverMetaReqId) context

/-- The do-while probe of lines 645-652: try request_id + "_1", "_2", ... until
a key not present in the map is found.  The C++ loop always terminates because
the map is finite and the candidate strings are pairwise distinct; the fuel
argument (called with map size + 1) dominates the number of iterations. -/
def findUnusedSuffix (m : CtxMap) (requestId : String) : Nat → Nat → String
  | suffix, 0 => requestId ++ "_" ++ toString suffix
  | suffix, fuel + 1 =>
    let tryRequestId := requestId ++ "_" ++ toString suffix
    if CtxMap.containsKey m tryRequestId then findUnusedSuffix m requestId (suffix + 1) fuel
    else tryRequestId

/-- OnPostRecvInitialMetaData (lines 602-665), restricted to the registry
effects.  clientReqId is the request_id entry of the client metadata;
serverMetaReqId is the REQ_ID entry of the server metadata when the handler
starts (a fresh call has none).  On the client-supplied branch the map is
marked under the (possibly suffixed) id with a nullptr placeholder, but the
Context object itself is built from the unsuffixed id and stored by SetContext
under the id that get_request_id reads back; set_request_id is only called on
the generated-id branch. -/
def OnPostRecvInitialMetaData (m : CtxMap) (clientReqId : Option String)
    (sequentialId : Nat) (serverMetaReqId : Option String) : CtxMap :=
  match clientReqId with
  | some requestId =>
    let marked :=
      if CtxMap.containsKey m requestId = false then CtxMap.store m requestId none
      else CtxMap.store m (findUnusedSuffix m requestId 1 (CtxMap.size m + 1)) none
    SetContext marked serverMetaReqId (some ⟨requestId⟩)
  | none =>
    let requestId := toString sequentialId
    -- set_request_id writes requestId into the server metadata before SetContext
    SetContext m (some requestId) (some ⟨requestId⟩)

/-! ## random_id (lines 708-716) -/

/-- random_id: draws from the generator stream until the value is non-zero and
returns that first non-zero draw.  The stream is the successive outputs of the
mutex-guarded random_num_generator_; the existence hypothesis expresses that
the generator is not the constant-zero stream. -/
def random_id (gen : Nat → Nat) (h : ∃ n, gen n ≠ 0) : Nat :=
  gen (Nat.find h)

/-! ## Concrete fixtures

The filter expression from the spec's scenario section,
a boolean query with a single term clause on the field age,
and a well-formed single vector-parameter block.
-/

def dslFixture : Json :=
  Json.obj (JsonFields.cons "bool"
    (Json.obj (JsonFields.cons "must"
      (Json.arr (JsonList.cons
        (Json.obj (JsonFields.cons "term"
          (Json.obj (JsonFields.cons "age"
            (Json.arr (JsonList.cons (Json.num 1)
              (JsonList.cons (Json.num 2) (JsonList.cons (Json.num 3) JsonList.nil))))
            JsonFields.nil))
          JsonFields.nil))
        JsonList.nil))
      JsonFields.nil))
    JsonFields.nil)

/-- A filter expression without a top-level bool key. -/
def dslNoBoolFixture : Json :=
  Json.obj (JsonFields.cons "must"
    (Json.arr (JsonList.cons
      (Json.obj (JsonFields.cons "term"
        (Json.obj (JsonFields.cons "age" (Json.arr (JsonList.cons (Json.num 1) JsonList.nil))
          JsonFields.nil))
        JsonFields.nil))
      JsonList.nil))
    JsonFields.nil)

def vpFixture : VectorParam :=
  { jsonParse := Except.ok (Json.obj (JsonFields.cons "placeholder_1"
      (Json.obj (JsonFields.cons "field_v"
        (Json.obj (JsonFields.cons "topk" (Json.num 10) JsonFields.nil))
        JsonFields.nil))
      JsonFields.nil))
    rowRecords := [⟨4, 0⟩] }

/-- Collaborator outcomes for a search whose converted binary query tree fails
the post-conversion structural validation. -/
def searchCollabsBinFail : SearchCollaborators :=
  ⟨statusOK, statusOK, false, statusOK⟩

/-- The spans recorded so far for one field of an insert batch. -/
def segsFor (p : InsertParam) (field : String) : List Segment :=
  (p.fieldsData.lookup field).getD []

/-- An insert request whose second field carries a different element count
than the first. -/
def insertReqMismatch : GrpcInsertParam :=
  { entityIdArray := []
    fields := [⟨"a", { int32Count := 2 }, []⟩, ⟨"b", { int64Count := 3 }, []⟩] }

/-- A consistent two-field insert request with a matching id array. -/
def insertReqGood : GrpcInsertParam :=
  { entityIdArray := [7, 8]
    fields := [⟨"a", { int32Count := 2 }, []⟩, ⟨"b", { doubleCount := 2 }, []⟩] }

/-! # Theorems -/

/-! ## C10: random_id never returns 0 -/

/-- C10: random_id never returns 0 — for every generator stream that is not
constantly zero, the returned identifier (the first non-zero draw, the
generator being re-drawn under the mutex until a non-zero value appears) is
non-zero. -/
theorem random_id_nonzero (gen : Nat → Nat) (h : ∃ n, gen n ≠ 0) :
    random_id gen h ≠ 0 :=
  Nat.find_spec h

theorem random_id_nonzero_witness :
    random_id (fun n => n) ⟨1, by decide⟩ ≠ 0 :=
  random_id_nonzero (fun n => n) ⟨1, by decide⟩

/-! ## C1: duplicate client-chosen request ids -/

/-- C1: evaluation of OnPostRecvInitialMetaData at a failing input.  The map
already holds the id req; the client supplies req again on a fresh call (no
REQ_ID server metadata).  The probe does reserve the smallest unused suffix
req_1, but only as a nullptr placeholder: the context built for the call still
carries the unsuffixed id req and is stored by SetContext under the id read
back from the server metadata, which is INVALID_ID because set_request_id is
never called on this branch.  The context for the call is therefore not keyed
by the suffixed id, contradicting the claim (and the source's own comment
about converting the id to request_id_n). -/
theorem onPostRecv_duplicate_id_eval :
    CtxMap.lookup (OnPostRecvInitialMetaData [("req", some ⟨"req"⟩)] (some "req") 0 none) "req_1" =
      some none ∧
    CtxMap.lookup (OnPostRecvInitialMetaData [("req", some ⟨"req"⟩)] (some "req") 0 none)
      "INVALID_ID" = some (some ⟨"req"⟩) ∧
    CtxMap.lookup (OnPostRecvInitialMetaData [("req", some ⟨"req"⟩)] (some "req") 0 none) "req" =
      some (some ⟨"req"⟩) := by
  decide

/-! ## C4: parse exceptions are caught and rewrapped -/

/-- C4: every in-flight exception of the try-block body (unparseable filter
string, unparseable vector-parameter JSON, or any other parse/type error) is
caught at the DeserializeDslToBoolQuery boundary and rewrapped as a
SERVER_INVALID_DSL_PARAMETER status (an InvalidArgument-class code) carrying
exactly the original exception message; DeserializeDslToBoolQuery is a total
function into DeserializeResult, so no exception propagates out of it. -/
theorem parse_exception_rewrapped_as_invalid_dsl
    (dslParse : Except String Json) (vectorParams : List VectorParam)
    (bq : BooleanQuery) (qd : QueryData) (m : String) (st : BooleanQuery × QueryData)
    (h : DeserializeRun dslParse vectorParams bq qd = PResult.exn m st) :
    DeserializeDslToBoolQuery dslParse vectorParams bq qd =
      ⟨⟨ErrorCode.SERVER_INVALID_DSL_PARAMETER, m⟩, st.1, st.2⟩ ∧
    invalidArgumentClass ErrorCode.SERVER_INVALID_DSL_PARAMETER = true := by
  obtain ⟨bq2, qd2⟩ := st
  refine ⟨?_, rfl⟩
  unfold DeserializeDslToBoolQuery
  rw [h]

theorem parse_exception_rewrapped_witness :
    DeserializeDslToBoolQuery (Except.error "parse error") [vpFixture] emptyBooleanQuery
      defaultQueryData =
      ⟨⟨ErrorCode.SERVER_INVALID_DSL_PARAMETER, "parse error"⟩, emptyBooleanQuery,
        defaultQueryData⟩ :=
  (parse_exception_rewrapped_as_invalid_dsl (Except.error "parse error") [vpFixture]
    emptyBooleanQuery defaultQueryData "parse error" (emptyBooleanQuery, defaultQueryData)
    rfl).1

/-! ## C2: exactly one vector-parameter block is required -/

/-- C2: whenever the list of vector-parameter blocks does not have length
exactly one (in particular when it is empty), DeserializeDslToBoolQuery fails
with an InvalidArgument-class status and leaves the boolean query tree
untouched, regardless of the filter expression (every path available under
this hypothesis — parse failure, empty dsl, or the explicit count check —
exits before any tree construction). -/
theorem vector_param_count_enforced
    (dslParse : Except String Json) (vectorParams : List VectorParam)
    (bq : BooleanQuery) (qd : QueryData) (h : vectorParams.length ≠ 1) :
    (DeserializeDslToBoolQuery dslParse vectorParams bq qd).status.ok = false ∧
    invalidArgumentClass (DeserializeDslToBoolQuery dslParse vectorParams bq qd).status.code =
      true ∧
    (DeserializeDslToBoolQuery dslParse vectorParams bq qd).booleanQuery = bq := by
  unfold DeserializeDslToBoolQuery DeserializeRun
  cases dslParse with
  | error m => exact ⟨rfl, rfl, rfl⟩
  | ok j =>
    cases he : j.isEmpty with
    | true => simp [he, Status.ok, invalidArgumentClass]
    | false => simp [he, h, Status.ok, invalidArgumentClass]

theorem vector_param_count_enforced_witness :
    (DeserializeDslToBoolQuery (Except.ok dslFixture) [] emptyBooleanQuery
      defaultQueryData).status.ok = false ∧
    invalidArgumentClass (DeserializeDslToBoolQuery (Except.ok dslFixture) [] emptyBooleanQuery
      defaultQueryData).status.code = true ∧
    (DeserializeDslToBoolQuery (Except.ok dslFixture) [] emptyBooleanQuery
      defaultQueryData).booleanQuery = emptyBooleanQuery :=
  vector_param_count_enforced (Except.ok dslFixture) [] emptyBooleanQuery defaultQueryData
    (by decide)

/-! ## C5 / C6: insert admission controller -/

/-- Reachability invariant of the admission controller: every outstanding size
is non-negative, the remaining budget plus the outstanding total is the
configured budget, and the remaining budget never goes negative. -/
theorem insertStep_preserves_invariant {B : Int} {st st' : AdmissionState}
    (hstep : InsertStep B st st')
    (hpos : ∀ x ∈ st.outstanding, 0 ≤ x) (hsum : st.budget + st.outstanding.sum = B)
    (hbud : 0 ≤ st.budget) :
    (∀ x ∈ st'.outstanding, 0 ≤ x) ∧ st'.budget + st'.outstanding.sum = B ∧
      0 ≤ st'.budget := by
  cases hstep with
  | waitToInsert s st0 hs hw =>
    dsimp only
    refine ⟨?_, ?_, by omega⟩
    · intro x hx
      rcases Multiset.mem_cons.mp hx with hx | hx
      · exact hx ▸ hs
      · exact hpos x hx
    · rw [Multiset.sum_cons]
      omega
  | finishInsert s st0 hmem =>
    have hsplit : s + (st.outstanding.erase s).sum = st.outstanding.sum := by
      rw [← Multiset.sum_cons, Multiset.cons_erase hmem]
    have hsp : 0 ≤ s := hpos s hmem
    dsimp only
    refine ⟨?_, by omega, by omega⟩
    intro x hx
    exact hpos x (Multiset.mem_of_mem_erase hx)

theorem insertReachable_invariant {B : Int} {st : AdmissionState} (hB : 0 ≤ B)
    (h : InsertReachable B st) :
    (∀ x ∈ st.outstanding, 0 ≤ x) ∧ st.budget + st.outstanding.sum = B ∧ 0 ≤ st.budget := by
  induction h with
  | init => exact ⟨by simp, by simp, hB⟩
  | step _ hstep ih =>
    exact insertStep_preserves_invariant hstep ih.1 ih.2.1 ih.2.2

/-- C5: a request whose size is at least the configured budget B can never be
admitted: the wait predicate budget - size > 0 of WaitToInsert is false in
every state reachable by paired WaitToInsert/FinishInsert steps, so the
condition-variable wait never completes. -/
theorem waitToInsert_oversized_blocks_forever {B s : Int} {st : AdmissionState}
    (hB : 0 ≤ B) (hs : B ≤ s) (h : InsertReachable B st) :
    ¬ (0 < st.budget - s) := by
  obtain ⟨hpos, hsum, _⟩ := insertReachable_invariant hB h
  have hnn : 0 ≤ st.outstanding.sum := Multiset.sum_nonneg hpos
  omega

theorem waitToInsert_oversized_blocks_forever_witness :
    ¬ (0 < (AdmissionState.mk 5 0).budget - 5) :=
  waitToInsert_oversized_blocks_forever (by norm_num) (by norm_num) InsertReachable.init

/-- C6: in every state reachable by any interleaving of paired
WaitToInsert(size)/FinishInsert(size) steps starting from a non-negative
budget B, the total of admitted-but-not-yet-released request sizes never
exceeds B, and the remaining budget counter is exactly B minus that total
(so it stays non-negative after every admission and never exceeds B after
every release). -/
theorem admitted_total_within_budget {B : Int} {st : AdmissionState}
    (hB : 0 ≤ B) (h : InsertReachable B st) :
    st.outstanding.sum ≤ B ∧ st.budget + st.outstanding.sum = B ∧ st.budget ≤ B := by
  obtain ⟨hpos, hsum, hbud⟩ := insertReachable_invariant hB h
  have hnn : 0 ≤ st.outstanding.sum := Multiset.sum_nonneg hpos
  exact ⟨by omega, hsum, by omega⟩

theorem admitted_total_within_budget_witness :
    (AdmissionState.mk 2 (3 ::ₘ 0)).outstanding.sum ≤ 5 ∧
    (AdmissionState.mk 2 (3 ::ₘ 0)).budget + (AdmissionState.mk 2 (3 ::ₘ 0)).outstanding.sum = 5 ∧
    (AdmissionState.mk 2 (3 ::ₘ 0)).budget ≤ 5 :=
  admitted_total_within_budget (by norm_num)
    (InsertReachable.step InsertReachable.init
      (InsertStep.waitToInsert 3 ⟨5, 0⟩ (by norm_num) (by norm_num)))

/-! ## C8: vector data priority in RecordVectorDataAddr -/

/-- Lookup after appendSegment: exactly the chosen field's span list grows. -/
theorem lookup_appendSegment (l : List (String × List Segment)) (field : String)
    (s : Segment) :
    ((appendSegment l field s).lookup field) = some (((l.lookup field).getD []) ++ [s]) := by
  induction l with
  | nil => simp [appendSegment]
  | cons head rest ih =>
    obtain ⟨g, segs⟩ := head
    by_cases hg : g = field
    · subst hg
      simp [appendSegment, List.lookup]
    · have hbeq : (field == g) = false := by
        simp only [beq_eq_false_iff_ne, ne_eq]
        intro hc
        exact hg hc.symm
      simp [appendSegment, hg, List.lookup, hbeq, ih]

/-- Appending a span for a field extends exactly that field's recorded spans. -/
theorem segsFor_recordDataAddr (fieldName : String) (kind : DataKind) (num : Nat)
    (p : InsertParam) :
    segsFor (RecordDataAddr fieldName kind num p) fieldName =
      segsFor p fieldName ++ [⟨kind, num⟩] := by
  unfold segsFor RecordDataAddr
  rw [lookup_appendSegment]
  simp

/-- Folding RecordDataAddr over the records appends one span per record. -/
theorem segsFor_foldl_record (fieldName : String) (kind : DataKind)
    (g : VectorRowRecord → Nat) (records : List VectorRowRecord) (p : InsertParam) :
    segsFor (records.foldl (fun acc r => RecordDataAddr fieldName kind (g r) acc) p) fieldName =
      segsFor p fieldName ++ records.map (fun r => ⟨kind, g r⟩) := by
  induction records generalizing p with
  | nil => simp
  | cons r rs ih =>
    simp only [List.foldl_cons, List.map_cons]
    rw [ih, segsFor_recordDataAddr]
    simp

/-- C8 counterexample: a vector field whose row records report both a non-zero
float total and a non-zero binary total.  RecordVectorDataAddr records the
float spans, not the binary spans, because the source tests float_data_size
first — the claim that binary takes priority is false at this input. -/
theorem recordVectorDataAddr_binary_priority_refuted :
    (0 < (([(⟨1, 2⟩ : VectorRowRecord)]).map VectorRowRecord.floatDataSize).sum ∧
     0 < (([(⟨1, 2⟩ : VectorRowRecord)]).map VectorRowRecord.binaryDataSize).sum) ∧
    segsFor (RecordVectorDataAddr "vec" [⟨1, 2⟩] {}) "vec" = [⟨DataKind.f32, 1⟩] ∧
    segsFor (RecordVectorDataAddr "vec" [⟨1, 2⟩] {}) "vec" ≠ [⟨DataKind.char, 2⟩] := by
  decide

/-- C8 amended: for every vector field whose row records report both a
non-zero total float-data size and a non-zero total binary-data size,
ingestion records the FLOAT data spans for that field — float data takes
priority over binary data in RecordVectorDataAddr. -/
theorem recordVectorDataAddr_float_priority (fieldName : String)
    (records : List VectorRowRecord) (p : InsertParam)
    (hf : 0 < (records.map VectorRowRecord.floatDataSize).sum)
    (_hb : 0 < (records.map VectorRowRecord.binaryDataSize).sum) :
    segsFor (RecordVectorDataAddr fieldName records p) fieldName =
      segsFor p fieldName ++
        records.map (fun r => ⟨DataKind.f32, r.floatDataSize⟩) := by
  unfold RecordVectorDataAddr
  simp only [if_pos hf]
  exact segsFor_foldl_record fieldName DataKind.f32 VectorRowRecord.floatDataSize records p

theorem recordVectorDataAddr_float_priority_witness :
    segsFor (RecordVectorDataAddr "vec" [⟨1, 2⟩] {}) "vec" = [⟨DataKind.f32, 1⟩] := by
  have h := recordVectorDataAddr_float_priority "vec" [⟨1, 2⟩] {} (by decide) (by decide)
  simpa [segsFor] using h

/-! ## C9: failed post-conversion validation in Search -/

/-- C9 counterexample: a search whose compiled boolean query is valid but
whose converted binary tree fails ValidateBinaryQuery.  The engine search is
not invoked and the Internal-class error is written into the entities
sub-status, while the top-level response status keeps its default SUCCESS
value — so the claim that the error is reported in the response status is
false at this input. -/
theorem search_binary_failure_not_in_response_status :
    (Search searchCollabsBinFail (Except.ok dslFixture) [vpFixture]).responseStatus =
      statusOK ∧
    internalClass
      (Search searchCollabsBinFail (Except.ok dslFixture) [vpFixture]).responseStatus.code =
      false ∧
    (Search searchCollabsBinFail (Except.ok dslFixture) [vpFixture]).entityStatus.code =
      ErrorCode.SERVER_INVALID_BINARY_QUERY ∧
    (Search searchCollabsBinFail (Except.ok dslFixture) [vpFixture]).engineInvoked = false := by
  decide

/-- C9 amended: for every successfully compiled and validated boolean query
whose conversion to the binary query tree fails the post-conversion structural
validation, the Search handler reports the Internal-class code
SERVER_INVALID_BINARY_QUERY (distinct from the InvalidArgument compile/parse
errors) in the status embedded in the response's entities field, leaves the
top-level response status at its default success value, and does not invoke
the engine search. -/
theorem search_binary_failure_reported_internal (c : SearchCollaborators)
    (dslParse : Except String Json) (vectorParams : List VectorParam)
    (h1 : c.getCollectionInfoStatus.ok = true)
    (h2 : (DeserializeDslToBoolQuery dslParse vectorParams emptyBooleanQuery
      defaultQueryData).status.ok = true)
    (h3 : c.validateBooleanQueryStatus.ok = true)
    (h4 : c.validateBinaryQueryOk = false) :
    (Search c dslParse vectorParams).engineInvoked = false ∧
    (Search c dslParse vectorParams).entityStatus.code =
      ErrorCode.SERVER_INVALID_BINARY_QUERY ∧
    internalClass (Search c dslParse vectorParams).entityStatus.code = true ∧
    invalidArgumentClass (Search c dslParse vectorParams).entityStatus.code = false ∧
    (Search c dslParse vectorParams).responseStatus = statusOK := by
  unfold Search
  simp [h1, h2, h3, h4, internalClass, invalidArgumentClass]

theorem search_binary_failure_reported_internal_witness :
    (Search searchCollabsBinFail (Except.ok dslFixture) [vpFixture]).engineInvoked = false ∧
    (Search searchCollabsBinFail (Except.ok dslFixture) [vpFixture]).entityStatus.code =
      ErrorCode.SERVER_INVALID_BINARY_QUERY ∧
    internalClass
      (Search searchCollabsBinFail (Except.ok dslFixture) [vpFixture]).entityStatus.code =
      true ∧
    invalidArgumentClass
      (Search searchCollabsBinFail (Except.ok dslFixture) [vpFixture]).entityStatus.code =
      false ∧
    (Search searchCollabsBinFail (Except.ok dslFixture) [vpFixture]).responseStatus =
      statusOK :=
  search_binary_failure_reported_internal searchCollabsBinFail (Except.ok dslFixture)
    [vpFixture] rfl rfl rfl rfl

/-! ## C3: a filter expression without a top-level bool key is rejected -/

theorem validateSearchTopk_not_ok {topk : Int}
    (h : (ValidateSearchTopk topk).ok = false) :
    (ValidateSearchTopk topk).code = ErrorCode.SERVER_INVALID_TOPK := by
  unfold ValidateSearchTopk at h ⊢
  by_cases hc : 0 < topk ∧ topk ≤ QUERY_MAX_TOPK
  · rw [if_pos hc] at h
    simp [statusOK, Status.ok] at h
  · rw [if_neg hc]

/-- The only early STATUS_CHECK return inside the vector-parameter block is
the failed top-k validation. -/
theorem processVectorParamInner_earlyStatus {inner : Json} {qd : QueryData} {s : Status}
    (h : ProcessVectorParamInner inner qd = Except.ok (Except.error s)) :
    s.ok = false ∧ s.code = ErrorCode.SERVER_INVALID_TOPK := by
  unfold ProcessVectorParamInner at h
  repeat' split at h
  all_goals first
    | (exfalso; simp at h; done)
    | (rename_i heqi hv
       have hs := h
       injection hs with h1
       injection h1 with h2
       exact h2 ▸ ⟨hv, validateSearchTopk_not_ok hv⟩)

theorem processOneVectorParam_earlyStatus {vp : VectorParam} {qd : QueryData}
    {s : Status} {qd2 : QueryData}
    (h : ProcessOneVectorParam vp qd = VPOutcome.earlyStatus s qd2) :
    s.ok = false ∧ s.code = ErrorCode.SERVER_INVALID_TOPK := by
  unfold ProcessOneVectorParam at h
  repeat' split at h
  all_goals first
    | (exfalso; simp at h; done)
    | (rename_i sErly heq2
       obtain ⟨rfl, rfl⟩ : sErly = s ∧ qd = qd2 := by
         injection h with h1 h2
         exact ⟨h1, h2⟩
       exact processVectorParamInner_earlyStatus heq2)

theorem processVectorParams_earlyStatus (vps : List VectorParam) :
    ∀ (qd : QueryData) {s : Status} {qd2 : QueryData},
    ProcessVectorParams vps qd = VPOutcome.earlyStatus s qd2 →
    s.ok = false ∧ s.code = ErrorCode.SERVER_INVALID_TOPK := by
  induction vps with
  | nil =>
    intro qd s qd2 h
    simp [ProcessVectorParams] at h
  | cons vp rest ih =>
    intro qd s qd2 h
    unfold ProcessVectorParams at h
    cases hv : ProcessOneVectorParam vp qd with
    | ok qd3 =>
      rw [hv] at h
      exact ih qd3 h
    | earlyStatus s3 qd3 =>
      rw [hv] at h
      obtain ⟨rfl, rfl⟩ : s3 = s ∧ qd3 = qd2 := by
        injection h with h1 h2
        exact ⟨h1, h2⟩
      exact processOneVectorParam_earlyStatus hv
    | exn m qd3 =>
      rw [hv] at h
      exact absurd h (by simp)

/-- C3: for every filter-expression string that parses as structured data but
has no top-level bool entry, DeserializeDslToBoolQuery fails with an
InvalidArgument-class status (on whichever path the failure surfaces: empty
dsl, wrong vector-parameter count, a failed top-k validation, a rewrapped
parse exception, or the explicit missing-bool check) and the boolean query
tree is left untouched — no compiled query tree is produced. -/
theorem missing_bool_key_rejected (j : Json) (vectorParams : List VectorParam)
    (bq : BooleanQuery) (qd : QueryData) (h : j.containsKey "bool" = false) :
    (DeserializeDslToBoolQuery (Except.ok j) vectorParams bq qd).status.ok = false ∧
    invalidArgumentClass
      (DeserializeDslToBoolQuery (Except.ok j) vectorParams bq qd).status.code = true ∧
    (DeserializeDslToBoolQuery (Except.ok j) vectorParams bq qd).booleanQuery = bq := by
  unfold DeserializeDslToBoolQuery DeserializeRun
  cases he : j.isEmpty with
  | true => simp [he, Status.ok, invalidArgumentClass]
  | false =>
    by_cases hl : vectorParams.length = 1
    · have hl2 : ¬ vectorParams.length ≠ 1 := by omega
      simp only [he, if_neg hl2, Bool.false_eq_true, if_false]
      cases hv : ProcessVectorParams vectorParams qd with
      | ok qd2 => simp [hv, h, Status.ok, invalidArgumentClass]
      | earlyStatus s qd2 =>
        obtain ⟨hok, hcode⟩ := processVectorParams_earlyStatus vectorParams qd hv
        simp [hv, hok, hcode, invalidArgumentClass]
      | exn m qd2 => simp [hv, Status.ok, invalidArgumentClass]
    · simp [he, hl, Status.ok, invalidArgumentClass]

theorem missing_bool_key_rejected_witness :
    (DeserializeDslToBoolQuery (Except.ok dslNoBoolFixture) [vpFixture] emptyBooleanQuery
      defaultQueryData).status.ok = false ∧
    invalidArgumentClass (DeserializeDslToBoolQuery (Except.ok dslNoBoolFixture) [vpFixture]
      emptyBooleanQuery defaultQueryData).status.code = true ∧
    (DeserializeDslToBoolQuery (Except.ok dslNoBoolFixture) [vpFixture] emptyBooleanQuery
      defaultQueryData).booleanQuery = emptyBooleanQuery :=
  missing_bool_key_rejected dslNoBoolFixture [vpFixture] emptyBooleanQuery defaultQueryData
    (by decide)

/-! ## C7: row-count consistency in OnInsert -/

theorem processInsertFields_mismatch (idsLen : Nat) (fields : List FieldParam) :
    ∀ (base : Int) (p : InsertParam), 0 ≤ base →
    (∃ f ∈ fields, (fieldElementCount f : Int) ≠ base) →
    ∃ msg, processInsertFields idsLen base fields p =
      Except.error ⟨ErrorCode.SERVER_INVALID_ROWRECORD_ARRAY, msg⟩ := by
  induction fields with
  | nil =>
    intro base p _ hex
    simp at hex
  | cons f rest ih =>
    intro base p hb hex
    unfold processInsertFields
    rw [if_neg (by omega)]
    by_cases hf : base = (fieldElementCount f : Int)
    · rw [if_neg (by omega)]
      apply ih base (fieldRecord f p) hb
      rcases hex with ⟨g, hg, hgne⟩
      rcases List.mem_cons.mp hg with rfl | hgr
      · exact absurd hf.symm hgne
      · exact ⟨g, hgr, hgne⟩
    · rw [if_pos (by omega)]
      exact ⟨_, rfl⟩

theorem processInsertFields_success (idsLen : Nat) (fields : List FieldParam) :
    ∀ (base : Int) (p : InsertParam), 0 ≤ base →
    (∀ f ∈ fields, (fieldElementCount f : Int) = base) →
    ∃ p2, processInsertFields idsLen base fields p = Except.ok (base, p2) := by
  induction fields with
  | nil =>
    intro base p _ _
    exact ⟨p, rfl⟩
  | cons f rest ih =>
    intro base p hb hall
    unfold processInsertFields
    rw [if_neg (by omega)]
    have hf : (fieldElementCount f : Int) = base := hall f (by simp)
    rw [if_neg (by omega)]
    exact ih base (fieldRecord f p) hb (fun g hg => hall g (by simp [hg]))

/-- C7: the first processed field establishes the batch row count (row_num);
if any subsequent field's element count differs from it, or a non-empty
client-supplied id array's length differs from it, OnInsert fails with an
InvalidArgument-class status and the downstream engine insert is never
invoked (no partial batch is accepted); conversely, on a consistent batch the
engine is invoked with insert_param.row_count_ equal to the first field's
element count. -/
theorem onInsert_row_count_enforced (request : GrpcInsertParam)
    (engineStatus : Status) (engineIds : List Int)
    (f0 : FieldParam) (rest : List FieldParam) (hfs : request.fields = f0 :: rest) :
    (((∃ f ∈ request.fields, fieldElementCount f ≠ fieldElementCount f0) ∨
      (request.entityIdArray ≠ [] ∧
        request.entityIdArray.length ≠ fieldElementCount f0)) →
      (OnInsert request engineStatus engineIds).engineInvoked = false ∧
      (OnInsert request engineStatus engineIds).status.ok = false ∧
      invalidArgumentClass (OnInsert request engineStatus engineIds).status.code = true) ∧
    (((∀ f ∈ request.fields, fieldElementCount f = fieldElementCount f0) ∧
      (request.entityIdArray = [] ∨
        request.entityIdArray.length = fieldElementCount f0) ∧
      (∀ i ∈ request.entityIdArray, 0 ≤ i)) →
      (OnInsert request engineStatus engineIds).engineInvoked = true ∧
      (OnInsert request engineStatus engineIds).param.rowCount =
        (fieldElementCount f0 : Int)) := by
  constructor
  · intro hmis
    unfold OnInsert
    by_cases hneg : request.entityIdArray.any (fun i => i < 0)
    · simp [hneg, Status.ok, invalidArgumentClass]
    · rw [Bool.not_eq_true] at hneg
      rw [hneg]
      simp only [Bool.false_eq_true, if_false]
      rw [hfs]
      unfold processInsertFields
      rw [if_pos (by norm_num)]
      by_cases hid : request.entityIdArray.length > 0 ∧
          ((fieldElementCount f0 : Int) ≠ (request.entityIdArray.length : Int))
      · rw [if_pos hid]
        simp [Status.ok, invalidArgumentClass]
      · rw [if_neg hid]
        have hmis2 : ∃ f ∈ rest, (fieldElementCount f : Int) ≠ (fieldElementCount f0 : Int) := by
          rcases hmis with ⟨g, hg, hgne⟩ | ⟨hids, hlen⟩
          · rw [hfs] at hg
            rcases List.mem_cons.mp hg with rfl | hgr
            · exact absurd rfl hgne
            · exact ⟨g, hgr, by exact_mod_cast hgne⟩
          · exfalso
            apply hid
            have : request.entityIdArray.length ≠ 0 := by
              intro hz
              exact hids (List.length_eq_zero.mp hz)
            exact ⟨by omega, by omega⟩
        obtain ⟨msg, hrun⟩ := processInsertFields_mismatch request.entityIdArray.length rest
          (fieldElementCount f0 : Int) (fieldRecord f0 {}) (by positivity) hmis2
        rw [hrun]
        simp [Status.ok, invalidArgumentClass]
  · intro hgood
    obtain ⟨hall, hid, hnn⟩ := hgood
    unfold OnInsert
    have hneg : request.entityIdArray.any (fun i => i < 0) = false := by
      rw [List.any_eq_false]
      intro i hi
      simpa using hnn i hi
    rw [hneg]
    simp only [Bool.false_eq_true, if_false]
    rw [hfs]
    unfold processInsertFields
    rw [if_pos (by norm_num)]
    have hidcond : ¬ (request.entityIdArray.length > 0 ∧
        ((fieldElementCount f0 : Int) ≠ (request.entityIdArray.length : Int))) := by
      rcases hid with hid | hid
      · rw [hid]
        simp
      · intro hcon
        exact hcon.2 (by exact_mod_cast hid.symm)
    rw [if_neg hidcond]
    have hall2 : ∀ f ∈ rest, (fieldElementCount f : Int) = (fieldElementCount f0 : Int) := by
      intro g hg
      have := hall g (by rw [hfs]; exact List.mem_cons_of_mem f0 hg)
      exact_mod_cast this
    obtain ⟨p2, hrun⟩ := processInsertFields_success request.entityIdArray.length rest
      (fieldElementCount f0 : Int) (fieldRecord f0 {}) (by positivity) hall2
    rw [hrun]
    by_cases hes : engineStatus.ok = false <;>
      by_cases hil : request.entityIdArray.length > 0 <;>
        simp [hes, hil, RecordDataAddr]

theorem onInsert_row_count_enforced_witness :
    ((OnInsert insertReqMismatch statusOK []).engineInvoked = false ∧
     (OnInsert insertReqMismatch statusOK []).status.ok = false ∧
     invalidArgumentClass (OnInsert insertReqMismatch statusOK []).status.code = true) ∧
    ((OnInsert insertReqGood statusOK [7, 8]).engineInvoked = true ∧
     (OnInsert insertReqGood statusOK [7, 8]).param.rowCount = (2 : Int)) := by
  constructor
  · exact (onInsert_row_count_enforced insertReqMismatch statusOK []
      ⟨"a", { int32Count := 2 }, []⟩ [⟨"b", { int64Count := 3 }, []⟩] rfl).1
      (Or.inl ⟨⟨"b", { int64Count := 3 }, []⟩, by decide, by decide⟩)
  · have h := (onInsert_row_count_enforced insertReqGood statusOK [7, 8]
      ⟨"a", { int32Count := 2 }, []⟩ [⟨"b", { doubleCount := 2 }, []⟩] rfl).2
      ⟨by decide, Or.inr (by decide), by decide⟩
    simpa using h

end MilvusGrpcHandler
